import Mathlib

/-
Shallow embedding of the lv2hostconfig package (Go), file lv2hostconfig.go
(the version with separate Data / DataFmt handling and an Evaluate method).

Modelling choices:
  * Go float32 values are idealized as real numbers.
  * Go maps are represented as association lists with unique keys; inserting
    every entry of a map into a fresh empty map is modelled as the list
    itself, and a single-key map assignment is modelled by mapInsert
    (replace-or-append).
  * The external govaluate library (NewEvaluableExpressionWithFunctions
    followed by Expression.Evaluate) is abstracted as an oracle of type
    GovEngine; the distinction between a parse error, an evaluation error
    and a successful result is kept, because the surrounding code branches
    on it.
  * File I/O and YAML (ioutil.ReadFile, yaml.Unmarshal, yaml.Marshal) are
    external; ReadFileWith takes the result of readConfig as an argument,
    and WriteToFileRaw produces the raw document that writeConfig would
    marshal.
  * Go error values built by fmt.Errorf are represented structurally: one
    constructor per format string, carrying the formatted arguments.
-/

/-- Values flowing through the expression evaluator (Go interface\x7b\x7d):
a numeric value (any Go numeric kind, reflect-convertible to float32),
a string, or a value of some other type (carrying its type name). -/
inductive GoValue where
  | num (x : ℝ)
  | str (s : String)
  | other (typeName : String)

/-- Errors produced by the built-in function library, one constructor per
fmt.Errorf format string used in setUpLV2HostConfigFuncs. -/
inductive FuncErr where
  | arity (fname : String) (expected : Nat)
  | notFloat (arg : GoValue)
  | badRange (lo hi : ℝ)
  | outOfRange (v lo hi : ℝ)

/-- Errors produced by LV2HostConfig.Evaluate, one constructor per
fmt.Errorf format string; each carries the offending formatted text and
the underlying cause. -/
inductive EvalErr where
  | parseError (text cause : String)
  | evalError (text cause : String)
  | resultError (text cause : String)

/-- Result of running govaluate on one expression string. -/
inductive GovResult where
  | parseErr (msg : String)
  | evalErr (msg : String)
  | ok (v : GoValue)

/-- A registered expression function (govaluate.ExpressionFunction). -/
abbrev GoFunc := List GoValue → Except FuncErr GoValue

/-- The function registry (LV2HostConfig.FunctionMap). -/
abbrev FuncMap := List (String × GoFunc)

/-- The variable environment (LV2HostConfig.ValueMap). -/
abbrev ValMap := List (String × GoValue)

/-- Abstract govaluate engine: given the expression text, the function
registry (used at parse time) and the value map (used at evaluation time),
produce a parse error, an evaluation error, or a value. -/
abbrev GovEngine := String → FuncMap → ValMap → GovResult

/-- Replace-or-append insertion into an association list, modelling a Go
map assignment m[k] = v. -/
def mapInsert {α : Type} : List (String × α) → String → α → List (String × α)
  | [], k, v => [(k, v)]
  | (k0, v0) :: rest, k, v =>
    if k0 = k then (k, v) :: rest else (k0, v0) :: mapInsert rest k v

/-- Digits of a decimal number, most significant first, to a natural. -/
def digitsToNat (l : List Char) : Nat :=
  l.foldl (fun acc c => acc * 10 + (c.toNat - 48)) 0

/-- Split an optional leading sign; returns (isNegative, rest). -/
def splitSign : List Char → Bool × List Char
  | '+' :: cs => (false, cs)
  | '-' :: cs => (true, cs)
  | cs => (false, cs)

/-- Take the maximal run of leading decimal digits. -/
def takeDigits (cs : List Char) : List Char × List Char :=
  (cs.takeWhile Char.isDigit, cs.dropWhile Char.isDigit)

/-- Parse the mantissa part: digits with an optional fractional part
(at least one digit overall); returns the value and the remaining input. -/
def parseMantissa (cs : List Char) : Option (ℚ × List Char) :=
  let p1 := takeDigits cs
  match p1.2 with
  | '.' :: r2 =>
    let p2 := takeDigits r2
    if p1.1.isEmpty && p2.1.isEmpty then none
    else some ((digitsToNat (p1.1 ++ p2.1) : ℚ) / ((10 : ℚ) ^ p2.1.length), p2.2)
  | _ => if p1.1.isEmpty then none else some ((digitsToNat p1.1 : ℚ), p1.2)

/-- Model of strconv.ParseFloat on plain decimal syntax: optional sign,
digits with optional fraction, optional decimal exponent. (The inf, nan,
hexadecimal and digit-separator forms accepted by the Go standard library
are outside the document syntax of interest and are not modelled.)
Values are exact rationals, matching the real-number idealization. -/
def parseGoFloat (s : String) : Option ℚ :=
  let sgn := splitSign s.toList
  match parseMantissa sgn.2 with
  | none => none
  | some (m, r) =>
    match r with
    | [] => some (if sgn.1 then -m else m)
    | e :: r2 =>
      if e = 'e' || e = 'E' then
        let esgn := splitSign r2
        let ds := takeDigits esgn.2
        if ds.1.isEmpty || !ds.2.isEmpty then none
        else
          let ex : ℚ := (10 : ℚ) ^ digitsToNat ds.1
          let m2 := if esgn.1 then m / ex else m * ex
          some (if sgn.1 then -m2 else m2)
      else none

/-- Model of getFloat: reflect-based coercion used for the arguments of
every built-in function. Numeric values convert directly; strings go
through strconv.ParseFloat; anything else fails with the message
listing the type name (Go: fmt.Errorf with the value type). -/
noncomputable def getFloat : GoValue → Except String ℝ
  | .num x => .ok x
  | .str s =>
    match parseGoFloat s with
    | some q => .ok (q : ℝ)
    | none => .error "invalid syntax"
  | .other t => .error ("cannot convert " ++ t ++ " to float")

/-- Model of getFloat32: reflect-based coercion applied to the result of
an evaluated expression. Only values reflect-convertible to float32
succeed; strings and other values fail (Go strings are not convertible
to float32). -/
def getFloat32 : GoValue → Except String ℝ
  | .num x => .ok x
  | .str _ => .error "Value is not a float"
  | .other _ => .error "Value is not a float"

/-- Model of dbToLinear: 10 raised to db over 20 (math.Pow). -/
noncomputable def dbToLinear (db : ℝ) : ℝ :=
  Real.rpow 10 (db / 20)

/-- Model of linearToDb: 20 times log base 10, with a fixed -144 floor
for zero input. -/
noncomputable def linearToDb (l : ℝ) : ℝ :=
  if l ≠ 0 then 20 * Real.logb 10 l else -144

/-- Built-in function linear: arity 1, coerce, then dbToLinear. -/
noncomputable def linearFunc : GoFunc := fun args =>
  match args with
  | [a] =>
    match getFloat a with
    | .error _ => .error (.notFloat a)
    | .ok db => .ok (.num (dbToLinear db))
  | _ => .error (.arity "linear" 1)

/-- Built-in function decibel: arity 1, coerce, then linearToDb. -/
noncomputable def decibelFunc : GoFunc := fun args =>
  match args with
  | [a] =>
    match getFloat a with
    | .error _ => .error (.notFloat a)
    | .ok l => .ok (.num (linearToDb l))
  | _ => .error (.arity "decibel" 1)

/-- Built-in function min: arity 2. Note: the source formats args[0] in
the error message of BOTH coercion failures (lines using args[0] twice),
so a failure on the second argument reports the first argument. -/
noncomputable def minFunc : GoFunc := fun args =>
  match args with
  | [a, b] =>
    match getFloat a with
    | .error _ => .error (.notFloat a)
    | .ok x =>
      match getFloat b with
      | .error _ => .error (.notFloat a)
      | .ok y => .ok (.num (min x y))
  | _ => .error (.arity "min" 2)

/-- Built-in function max: arity 2; same args[0] reporting as minFunc. -/
noncomputable def maxFunc : GoFunc := fun args =>
  match args with
  | [a, b] =>
    match getFloat a with
    | .error _ => .error (.notFloat a)
    | .ok x =>
      match getFloat b with
      | .error _ => .error (.notFloat a)
      | .ok y => .ok (.num (max x y))
  | _ => .error (.arity "max" 2)

/-- Built-in function abs: arity 1. -/
noncomputable def absFunc : GoFunc := fun args =>
  match args with
  | [a] =>
    match getFloat a with
    | .error _ => .error (.notFloat a)
    | .ok x => .ok (.num (abs x))
  | _ => .error (.arity "abs" 1)

/-- Built-in function sqrt: arity 1 (math.Sqrt, idealized as Real.sqrt). -/
noncomputable def sqrtFunc : GoFunc := fun args =>
  match args with
  | [a] =>
    match getFloat a with
    | .error _ => .error (.notFloat a)
    | .ok x => .ok (.num (Real.sqrt x))
  | _ => .error (.arity "sqrt" 1)

/-- Built-in function pow: arity 2 (math.Pow, idealized as Real.rpow);
same args[0] reporting as minFunc. -/
noncomputable def powFunc : GoFunc := fun args =>
  match args with
  | [a, b] =>
    match getFloat a with
    | .error _ => .error (.notFloat a)
    | .ok x =>
      match getFloat b with
      | .error _ => .error (.notFloat a)
      | .ok y => .ok (.num (Real.rpow x y))
  | _ => .error (.arity "pow" 2)

/-- Built-in function scale: arity 5; coerce all five arguments in order
(each failure reports the argument that failed), check the source range,
check the target range, check the domain, then rescale. -/
noncomputable def scaleFunc : GoFunc := fun args =>
  match args with
  | [a0, a1, a2, a3, a4] =>
    match getFloat a0 with
    | .error _ => .error (.notFloat a0)
    | .ok val =>
      match getFloat a1 with
      | .error _ => .error (.notFloat a1)
      | .ok oldMin =>
        match getFloat a2 with
        | .error _ => .error (.notFloat a2)
        | .ok oldMax =>
          match getFloat a3 with
          | .error _ => .error (.notFloat a3)
          | .ok newMin =>
            match getFloat a4 with
            | .error _ => .error (.notFloat a4)
            | .ok newMax =>
              if oldMin ≥ oldMax then .error (.badRange oldMin oldMax)
              else if newMin ≥ newMax then .error (.badRange newMin newMax)
              else if val < oldMin ∨ val > oldMax then
                .error (.outOfRange val oldMin oldMax)
              else
                .ok (.num ((newMax - newMin) * ((val - oldMin) / (oldMax - oldMin)) + newMin))
  | _ => .error (.arity "scale" 5)

/-- Model of LV2PluginConfig: plugin URI, resolved values, formatted text. -/
structure LV2PluginConfig where
  PluginURI : String
  Data : List (String × ℝ)
  DataFmt : List (String × String)

/-- Model of LV2HostConfig: plugin list, value map, function registry. -/
structure LV2HostConfig where
  Plugins : List LV2PluginConfig
  ValueMap : ValMap
  FunctionMap : FuncMap

/-- Model of lv2PluginRaw: the raw document entity shape. -/
structure Lv2PluginRaw where
  URI : String
  Data : List (String × String)

/-- Model of lv2HostRaw: the raw document shape. -/
structure Lv2HostRaw where
  Reference : ℝ
  Plugins : List Lv2PluginRaw

/-- Model of setUpLV2HostConfigFuncs: install the eight built-ins, in
source order, into a function map. -/
noncomputable def setUpLV2HostConfigFuncs (m : FuncMap) : FuncMap :=
  mapInsert (mapInsert (mapInsert (mapInsert (mapInsert (mapInsert
    (mapInsert (mapInsert m "linear" linearFunc) "decibel" decibelFunc)
    "min" minFunc) "max" maxFunc) "abs" absFunc) "sqrt" sqrtFunc)
    "pow" powFunc) "scale" scaleFunc

/-- Model of NewLV2HostConfig: empty store with the built-ins installed. -/
noncomputable def NewLV2HostConfig : LV2HostConfig :=
  { Plugins := [], ValueMap := [],
    FunctionMap := setUpLV2HostConfigFuncs [] }

/-- Resolution of one formatted value, the body of the Evaluate loop:
literal branch via strconv.ParseFloat first; otherwise govaluate parse,
evaluate, and getFloat32 coercion, each failure wrapped with the
formatted text. -/
noncomputable def resolveValue (g : GovEngine) (funcs : FuncMap) (env : ValMap)
    (value : String) : Except EvalErr ℝ :=
  match parseGoFloat value with
  | some q => .ok (q : ℝ)
  | none =>
    match g value funcs env with
    | .parseErr e => .error (.parseError value e)
    | .evalErr e => .error (.evalError value e)
    | .ok v =>
      match getFloat32 v with
      | .error e => .error (.resultError value e)
      | .ok r => .ok r

/-- Inner Evaluate loop over the parameters of one entity: rebuild the
DataFmt entries and resolve each value into the Data entries. -/
noncomputable def resolveParams (g : GovEngine) (funcs : FuncMap) (env : ValMap) :
    List (String × String) → Except EvalErr (List (String × String) × List (String × ℝ))
  | [] => .ok ([], [])
  | (param, value) :: rest =>
    match resolveValue g funcs env value with
    | .error e => .error e
    | .ok r =>
      match resolveParams g funcs env rest with
      | .error e => .error e
      | .ok (fmts, datas) => .ok ((param, value) :: fmts, (param, r) :: datas)

/-- Outer Evaluate loop over the plugin list, building the candidate list. -/
noncomputable def evaluatePlugins (g : GovEngine) (funcs : FuncMap) (env : ValMap) :
    List LV2PluginConfig → Except EvalErr (List LV2PluginConfig)
  | [] => .ok []
  | pd :: rest =>
    match resolveParams g funcs env pd.DataFmt with
    | .error e => .error e
    | .ok fd =>
      match evaluatePlugins g funcs env rest with
      | .error e => .error e
      | .ok pcs =>
        .ok ({ PluginURI := pd.PluginURI, Data := fd.2, DataFmt := fd.1 } :: pcs)

/-- Model of LV2HostConfig.Evaluate: build a candidate list on a copy; on
any error return it with the receiver untouched; on success overwrite the
plugin list with the candidate list. The result pairs the returned error
(none on success) with the state of the receiver after the call. -/
noncomputable def LV2HostConfig.Evaluate (g : GovEngine) (c : LV2HostConfig) :
    Option EvalErr × LV2HostConfig :=
  match evaluatePlugins g c.FunctionMap c.ValueMap c.Plugins with
  | .error e => (some e, c)
  | .ok pcs => (none, { c with Plugins := pcs })

/-- Model of LV2HostConfig.ReadFile, taking the result of readConfig (the
external file read and YAML parse) as input: on error return it with the
receiver untouched; on success rebuild the plugin list from the raw
entities (formatted text only, no resolved data) and set the reference
entry of the value map from the top-level scalar. -/
def LV2HostConfig.ReadFileWith (res : Except String Lv2HostRaw)
    (c : LV2HostConfig) : Option String × LV2HostConfig :=
  match res with
  | .error err => (some err, c)
  | .ok raw =>
    (none,
      { c with
        Plugins := raw.Plugins.map (fun rpd =>
          { PluginURI := rpd.URI, Data := [], DataFmt := rpd.Data }),
        ValueMap := mapInsert c.ValueMap "reference" (.num raw.Reference) })

/-- Model of LV2HostConfig.WriteToFile up to the external YAML marshal:
the raw document handed to writeConfig. Only PluginURI and DataFmt are
written; Data never is, and the raw Reference field keeps its zero value
from newLV2HostRaw (the source never assigns it). -/
def LV2HostConfig.WriteToFileRaw (c : LV2HostConfig) : Lv2HostRaw :=
  { Reference := 0,
    Plugins := c.Plugins.map (fun pcfg =>
      { URI := pcfg.PluginURI, Data := pcfg.DataFmt }) }

/-- Formatted text carried by an evaluation error. -/
def EvalErr.text : EvalErr → String
  | .parseError t _ => t
  | .evalError t _ => t
  | .resultError t _ => t

/-- The formatted text carried by a resolveValue error is the value that
was being resolved. -/
theorem resolveValue_error_text (g : GovEngine) (funcs : FuncMap) (env : ValMap)
    (value : String) (e : EvalErr) (h : resolveValue g funcs env value = .error e) :
    e.text = value := by
  unfold resolveValue at h
  cases hp : parseGoFloat value with
  | some q => rw [hp] at h; exact absurd h (by simp)
  | none =>
    rw [hp] at h
    cases hg : g value funcs env with
    | parseErr m => rw [hg] at h; cases h; rfl
    | evalErr m => rw [hg] at h; cases h; rfl
    | ok v =>
      rw [hg] at h
      dsimp only at h
      cases hf : getFloat32 v with
      | error m => rw [hf] at h; cases h; rfl
      | ok r => rw [hf] at h; exact absurd h (by simp)

/-- On success, resolveParams returns the DataFmt list unchanged and a
Data list over exactly the same keys. -/
theorem resolveParams_ok_spec (g : GovEngine) (funcs : FuncMap) (env : ValMap) :
    ∀ (l fmts : List (String × String)) (datas : List (String × ℝ)),
      resolveParams g funcs env l = .ok (fmts, datas) →
      fmts = l ∧ datas.map Prod.fst = l.map Prod.fst
  | [], fmts, datas, h => by
    unfold resolveParams at h
    cases h
    exact ⟨rfl, rfl⟩
  | (param, value) :: rest, fmts, datas, h => by
    unfold resolveParams at h
    cases hv : resolveValue g funcs env value with
    | error e => rw [hv] at h; exact absurd h (by simp)
    | ok r =>
      rw [hv] at h
      cases hr : resolveParams g funcs env rest with
      | error e => rw [hr] at h; exact absurd h (by simp)
      | ok fd =>
        rw [hr] at h
        obtain ⟨ih1, ih2⟩ := resolveParams_ok_spec g funcs env rest fd.1 fd.2
          (by rw [hr])
        cases h
        constructor
        · simpa using ih1
        · simpa using ih2

/-- On failure, the resolveParams error carries the formatted text of one
of the parameters in the list. -/
theorem resolveParams_error_mem (g : GovEngine) (funcs : FuncMap) (env : ValMap) :
    ∀ (l : List (String × String)) (e : EvalErr),
      resolveParams g funcs env l = .error e →
      ∃ p ∈ l, e.text = p.2
  | [], e, h => by
    unfold resolveParams at h
    exact absurd h (by simp)
  | (param, value) :: rest, e, h => by
    unfold resolveParams at h
    cases hv : resolveValue g funcs env value with
    | error e0 =>
      rw [hv] at h
      cases h
      exact ⟨(param, value), by simp,
        resolveValue_error_text g funcs env value e hv⟩
    | ok r =>
      rw [hv] at h
      cases hr : resolveParams g funcs env rest with
      | error e0 =>
        rw [hr] at h
        cases h
        obtain ⟨p, hp, hpt⟩ := resolveParams_error_mem g funcs env rest e hr
        exact ⟨p, by simp [hp], hpt⟩
      | ok fd => rw [hr] at h; exact absurd h (by simp)

/-- On success, every entity in the candidate list has its Data keyed
exactly like its DataFmt. -/
theorem evaluatePlugins_keys (g : GovEngine) (funcs : FuncMap) (env : ValMap) :
    ∀ (ps pcs : List LV2PluginConfig),
      evaluatePlugins g funcs env ps = .ok pcs →
      ∀ pc ∈ pcs, pc.Data.map Prod.fst = pc.DataFmt.map Prod.fst
  | [], pcs, h => by
    unfold evaluatePlugins at h
    cases h
    intro pc hpc
    exact absurd hpc (by simp)
  | pd :: rest, pcs, h => by
    unfold evaluatePlugins at h
    cases hp : resolveParams g funcs env pd.DataFmt with
    | error e => rw [hp] at h; exact absurd h (by simp)
    | ok fd =>
      rw [hp] at h
      cases hr : evaluatePlugins g funcs env rest with
      | error e => rw [hr] at h; exact absurd h (by simp)
      | ok pcs0 =>
        rw [hr] at h
        cases h
        intro pc hpc
        rcases List.mem_cons.mp hpc with hl | hr2
        · obtain ⟨h1, h2⟩ := resolveParams_ok_spec g funcs env pd.DataFmt fd.1 fd.2
            (by rw [hp])
          subst hl
          simpa [h1] using h2
        · exact evaluatePlugins_keys g funcs env rest pcs0 hr pc hr2

/-- On failure, the evaluatePlugins error carries the formatted text of
one of the parameters of one of the entities. -/
theorem evaluatePlugins_error_mem (g : GovEngine) (funcs : FuncMap) (env : ValMap) :
    ∀ (ps : List LV2PluginConfig) (e : EvalErr),
      evaluatePlugins g funcs env ps = .error e →
      ∃ pc ∈ ps, ∃ p ∈ pc.DataFmt, e.text = p.2
  | [], e, h => by
    unfold evaluatePlugins at h
    exact absurd h (by simp)
  | pd :: rest, e, h => by
    unfold evaluatePlugins at h
    cases hp : resolveParams g funcs env pd.DataFmt with
    | error e0 =>
      rw [hp] at h
      cases h
      obtain ⟨p, hp1, hp2⟩ := resolveParams_error_mem g funcs env pd.DataFmt e hp
      exact ⟨pd, by simp, p, hp1, hp2⟩
    | ok fd =>
      rw [hp] at h
      cases hr : evaluatePlugins g funcs env rest with
      | error e0 =>
        rw [hr] at h
        cases h
        obtain ⟨pc, h1, p, h2, h3⟩ := evaluatePlugins_error_mem g funcs env rest e hr
        exact ⟨pc, by simp [h1], p, h2, h3⟩
      | ok pcs => rw [hr] at h; exact absurd h (by simp)

/-- A govaluate oracle that fails to parse every expression. -/
def gNever : GovEngine := fun _ _ _ => .parseErr "bad"

/-- A govaluate oracle whose every expression evaluates to the string
value 1.5 (as a govaluate string literal would). -/
def gStr : GovEngine := fun _ _ _ => .ok (.str "1.5")

/-- A store with a single plugin whose single parameter is not a float
literal, so its resolution consults the oracle. -/
def stFail : LV2HostConfig :=
  { Plugins := [{ PluginURI := "uri", Data := [], DataFmt := [("p", "oops")] }],
    ValueMap := [], FunctionMap := [] }

/-- A store with a single plugin whose single parameter is the float
literal 7. -/
def stOk : LV2HostConfig :=
  { Plugins := [{ PluginURI := "uri", Data := [], DataFmt := [("p", "7")] }],
    ValueMap := [], FunctionMap := [] }

/-- Claim C1: Evaluate is atomic. For every oracle and store, if the pass
fails the store after the call equals the store before it, and if the
pass succeeds the plugin list is exactly the candidate list built by the
pass while the value map and function registry are untouched. -/
theorem c1_evaluate_atomic (g : GovEngine) (c : LV2HostConfig) :
    ((c.Evaluate g).1.isSome = true → (c.Evaluate g).2 = c) ∧
    ((c.Evaluate g).1 = none →
      evaluatePlugins g c.FunctionMap c.ValueMap c.Plugins = .ok (c.Evaluate g).2.Plugins ∧
      (c.Evaluate g).2.ValueMap = c.ValueMap ∧
      (c.Evaluate g).2.FunctionMap = c.FunctionMap) := by
  unfold LV2HostConfig.Evaluate
  cases h : evaluatePlugins g c.FunctionMap c.ValueMap c.Plugins with
  | error e => simp
  | ok pcs => simp

/-- Witness for C1 at concrete inputs: a failing pass leaves the store
untouched, a succeeding pass installs the candidate list. -/
theorem c1_evaluate_atomic_witness :
    (LV2HostConfig.Evaluate gNever stFail).1.isSome = true ∧
    (LV2HostConfig.Evaluate gNever stFail).2 = stFail ∧
    (LV2HostConfig.Evaluate gNever stOk).1 = none ∧
    evaluatePlugins gNever stOk.FunctionMap stOk.ValueMap stOk.Plugins =
      .ok (LV2HostConfig.Evaluate gNever stOk).2.Plugins :=
  ⟨rfl, (c1_evaluate_atomic gNever stFail).1 rfl, rfl,
    ((c1_evaluate_atomic gNever stOk).2 rfl).1⟩

/-- Claim C2: literal precedence. If the formatted text parses as a plain
float literal, resolution yields exactly that value for every oracle,
function registry and environment (so no expression parsing, function
lookup or environment lookup can influence it), and Evaluate on a store
holding that text resolves it accordingly. -/
theorem c2_literal_precedence (text : String) (q : ℚ)
    (h : parseGoFloat text = some q) :
    (∀ (g g2 : GovEngine) (funcs funcs2 : FuncMap) (env env2 : ValMap),
      resolveValue g funcs env text = .ok ((q : ℚ) : ℝ) ∧
      resolveValue g funcs env text = resolveValue g2 funcs2 env2 text) ∧
    (∀ (g : GovEngine) (funcs : FuncMap) (env : ValMap) (uri pname : String)
      (d0 : List (String × ℝ)),
      LV2HostConfig.Evaluate g
        { Plugins := [{ PluginURI := uri, Data := d0, DataFmt := [(pname, text)] }],
          ValueMap := env, FunctionMap := funcs } =
      (none,
        { Plugins := [{ PluginURI := uri, Data := [(pname, ((q : ℚ) : ℝ))],
                        DataFmt := [(pname, text)] }],
          ValueMap := env, FunctionMap := funcs })) := by
  constructor
  · intro g g2 funcs funcs2 env env2
    constructor
    · unfold resolveValue; rw [h]
    · unfold resolveValue; rw [h]
  · intro g funcs env uri pname d0
    simp [LV2HostConfig.Evaluate, evaluatePlugins, resolveParams, resolveValue, h]

/-- Witness for C2 at the literal 7. -/
theorem c2_literal_precedence_witness :
    parseGoFloat "7" = some 7 ∧
    resolveValue gNever [] [] "7" = .ok ((7 : ℚ) : ℝ) :=
  ⟨by decide, ((c2_literal_precedence "7" 7 (by decide)).1 gNever gNever [] [] [] []).1⟩

/-- Claim C5: serialization uses formatted text only. Overwriting every
resolved Data map leaves the serialized raw document unchanged, and
loading the serialized document back reproduces every DataFmt map and
URI exactly. -/
theorem c5_serialize_formatted_only (c : LV2HostConfig)
    (f : LV2PluginConfig → List (String × ℝ)) :
    LV2HostConfig.WriteToFileRaw
        { c with Plugins := c.Plugins.map (fun pc => { pc with Data := f pc }) } =
      c.WriteToFileRaw ∧
    (LV2HostConfig.ReadFileWith (.ok c.WriteToFileRaw) c).2.Plugins.map
        LV2PluginConfig.DataFmt = c.Plugins.map LV2PluginConfig.DataFmt ∧
    (LV2HostConfig.ReadFileWith (.ok c.WriteToFileRaw) c).2.Plugins.map
        LV2PluginConfig.PluginURI = c.Plugins.map LV2PluginConfig.PluginURI := by
  refine ⟨?_, ?_, ?_⟩ <;>
    simp [LV2HostConfig.WriteToFileRaw, LV2HostConfig.ReadFileWith, List.map_map,
      Function.comp]

/-- Claim C10: Load failure atomicity. When the external read or parse of
the document fails, ReadFile returns that error and the store (entities,
environment including the reference entry, and function registry) is the
exact store from before the call. -/
theorem c10_load_failure_atomic (res : Except String Lv2HostRaw)
    (c : LV2HostConfig) (e : String) (h : res = .error e) :
    LV2HostConfig.ReadFileWith res c = (some e, c) := by
  subst h; rfl

/-- Witness for C10 at a concrete failed read. -/
theorem c10_load_failure_atomic_witness :
    (Except.error "Failed to read config: boom" : Except String Lv2HostRaw) =
      .error "Failed to read config: boom" ∧
    LV2HostConfig.ReadFileWith (.error "Failed to read config: boom") stOk =
      (some "Failed to read config: boom", stOk) :=
  ⟨rfl, c10_load_failure_atomic _ stOk _ rfl⟩

/-- A store whose only parameter text is an expression the oracle rejects,
under plugin pluginA and parameter alpha. -/
def stA : LV2HostConfig :=
  { Plugins := [{ PluginURI := "pluginA", Data := [], DataFmt := [("alpha", "boom()")] }],
    ValueMap := [], FunctionMap := [] }

/-- Same failing parameter text as stA, but under a different plugin URI
(pluginB) and a different parameter name (beta). -/
def stB : LV2HostConfig :=
  { Plugins := [{ PluginURI := "pluginB", Data := [], DataFmt := [("beta", "boom()")] }],
    ValueMap := [], FunctionMap := [] }

/-- Counterexample to claim C3: two stores that differ in the entity URI
and in the parameter name produce the very same Evaluate error, so the
error cannot name either; it is some (parseError with the formatted text
and the cause only). -/
theorem c3_counterexample :
    stA.Plugins.map LV2PluginConfig.PluginURI ≠ stB.Plugins.map LV2PluginConfig.PluginURI ∧
    stA.Plugins.map (fun pc => pc.DataFmt.map Prod.fst) ≠
      stB.Plugins.map (fun pc => pc.DataFmt.map Prod.fst) ∧
    (stA.Evaluate gNever).1 = some (.parseError "boom()" "bad") ∧
    (stB.Evaluate gNever).1 = (stA.Evaluate gNever).1 :=
  ⟨by decide, by decide, rfl, rfl⟩

/-- Claim C3 as amended: whenever Evaluate fails, the error names the
offending parameter original formatted text together with the underlying
cause, but carries no entity identifier and no parameter name. -/
theorem c3_amended_error_names_text (g : GovEngine) (c : LV2HostConfig)
    (e : EvalErr) (c2 : LV2HostConfig) (h : c.Evaluate g = (some e, c2)) :
    ∃ pc ∈ c.Plugins, ∃ p ∈ pc.DataFmt, e.text = p.2 := by
  unfold LV2HostConfig.Evaluate at h
  cases he : evaluatePlugins g c.FunctionMap c.ValueMap c.Plugins with
  | error e0 =>
    rw [he] at h
    cases h
    exact evaluatePlugins_error_mem g c.FunctionMap c.ValueMap c.Plugins e he
  | ok pcs =>
    rw [he] at h
    exact absurd h (by simp)

/-- Witness for the amended C3 at a concrete failing store. -/
theorem c3_amended_error_names_text_witness :
    LV2HostConfig.Evaluate gNever stA = (some (.parseError "boom()" "bad"), stA) ∧
    ∃ pc ∈ stA.Plugins, ∃ p ∈ pc.DataFmt,
      (EvalErr.parseError "boom()" "bad").text = p.2 :=
  ⟨rfl, c3_amended_error_names_text gNever stA (.parseError "boom()" "bad") stA rfl⟩

/-- A store with a single parameter whose text is an expression; with the
oracle gStr its evaluation result is the string 1.5. -/
def stC : LV2HostConfig :=
  { Plugins := [{ PluginURI := "uri", Data := [], DataFmt := [("p", "v + 1")] }],
    ValueMap := [], FunctionMap := [] }

/-- Counterexample to claim C4: an expression result that is a string
whose content parses as a float (1.5) does NOT resolve to that number;
Evaluate fails with the result coercion error, because getFloat32 rejects
every non-numeric value. -/
theorem c4_counterexample :
    (parseGoFloat "1.5").isSome = true ∧
    gStr "v + 1" [] [] = .ok (.str "1.5") ∧
    LV2HostConfig.Evaluate gStr stC =
      (some (.resultError "v + 1" "Value is not a float"), stC) :=
  ⟨rfl, rfl, rfl⟩

/-- Claim C4 as amended: the coercion applied to a successfully evaluated
expression result accepts only numeric values; a textual result, even one
whose content parses as a float, fails with the coercion error, as does
any other non-numeric result. (Textual acceptance exists only in the
argument coercion getFloat of the built-in functions.) -/
theorem c4_amended_result_coercion (g : GovEngine) (funcs : FuncMap)
    (env : ValMap) (text : String) (v : GoValue)
    (hp : parseGoFloat text = none) (hg : g text funcs env = .ok v) :
    (∀ x, getFloat32 (GoValue.num x) = .ok x) ∧
    (∀ s, getFloat32 (GoValue.str s) = .error "Value is not a float") ∧
    (∀ t, getFloat32 (GoValue.other t) = .error "Value is not a float") ∧
    resolveValue g funcs env text =
      (match getFloat32 v with
       | .ok x => .ok x
       | .error cause => .error (.resultError text cause)) := by
  refine ⟨fun x => rfl, fun s => rfl, fun t => rfl, ?_⟩
  unfold resolveValue
  rw [hp, hg]
  dsimp only
  cases hf : getFloat32 v with
  | error cause => rfl
  | ok r => rfl

/-- Witness for the amended C4: a string result parsing as 1.5 still
yields the coercion error. -/
theorem c4_amended_result_coercion_witness :
    parseGoFloat "v + 1" = none ∧
    gStr "v + 1" [] [] = .ok (.str "1.5") ∧
    resolveValue gStr [] [] "v + 1" =
      .error (.resultError "v + 1" "Value is not a float") :=
  ⟨by decide, rfl,
    (c4_amended_result_coercion gStr [] [] "v + 1" (.str "1.5") (by decide) rfl).2.2.2⟩

/-- Claim C6: scale on coercible arguments. It fails on an inverted or
empty source range, then on an inverted or empty target range, then on a
value outside the source range, and otherwise returns
newMin + (newMax - newMin) * (val - oldMin) / (oldMax - oldMin). -/
theorem c6_scale_spec (a0 a1 a2 a3 a4 : GoValue) (v0 v1 v2 v3 v4 : ℝ)
    (h0 : getFloat a0 = .ok v0) (h1 : getFloat a1 = .ok v1)
    (h2 : getFloat a2 = .ok v2) (h3 : getFloat a3 = .ok v3)
    (h4 : getFloat a4 = .ok v4) :
    scaleFunc [a0, a1, a2, a3, a4] =
      if v1 ≥ v2 then .error (.badRange v1 v2)
      else if v3 ≥ v4 then .error (.badRange v3 v4)
      else if v0 < v1 ∨ v0 > v2 then .error (.outOfRange v0 v1 v2)
      else .ok (.num (v3 + (v4 - v3) * (v0 - v1) / (v2 - v1))) := by
  have hstep : scaleFunc [a0, a1, a2, a3, a4] =
      (if v1 ≥ v2 then .error (.badRange v1 v2)
       else if v3 ≥ v4 then .error (.badRange v3 v4)
       else if v0 < v1 ∨ v0 > v2 then .error (.outOfRange v0 v1 v2)
       else .ok (.num ((v4 - v3) * ((v0 - v1) / (v2 - v1)) + v3))) := by
    simp only [scaleFunc, h0, h1, h2, h3, h4]
  rw [hstep]
  split_ifs
  · rfl
  · rfl
  · rfl
  · exact congrArg (fun x => Except.ok (GoValue.num x)) (by ring)

/-- Witness for C6: the three concrete examples from the claim. -/
theorem c6_scale_spec_witness :
    getFloat (.num 5) = .ok 5 ∧
    scaleFunc [.num 5, .num 0, .num 10, .num 0, .num 100] = .ok (.num 50) ∧
    scaleFunc [.num 5, .num 0, .num 10, .num 100, .num 0] =
      .error (.badRange 100 0) ∧
    scaleFunc [.num 15, .num 0, .num 10, .num 0, .num 100] =
      .error (.outOfRange 15 0 10) := by
  refine ⟨rfl, ?_, ?_, ?_⟩
  · rw [c6_scale_spec (.num 5) (.num 0) (.num 10) (.num 0) (.num 100)
      5 0 10 0 100 rfl rfl rfl rfl rfl]
    norm_num
  · rw [c6_scale_spec (.num 5) (.num 0) (.num 10) (.num 100) (.num 0)
      5 0 10 100 0 rfl rfl rfl rfl rfl]
    norm_num
  · rw [c6_scale_spec (.num 15) (.num 0) (.num 10) (.num 0) (.num 100)
      15 0 10 0 100 rfl rfl rfl rfl rfl]
    norm_num

/-- Claim C7: for every coercible argument, linear returns 10 to the
power of the argument over 20, and decibel returns 20 times log base 10
of the argument when it is nonzero and the fixed -144 floor otherwise. -/
theorem c7_db_linear_pair (arg : GoValue) (x : ℝ) (h : getFloat arg = .ok x) :
    linearFunc [arg] = .ok (.num (Real.rpow 10 (x / 20))) ∧
    decibelFunc [arg] = .ok (.num (if x ≠ 0 then 20 * Real.logb 10 x else -144)) := by
  constructor
  · simp only [linearFunc, h]
    rfl
  · simp only [decibelFunc, h]
    rfl

/-- Witness for C7: linear of 0 is 1, decibel of 0 is -144. -/
theorem c7_db_linear_pair_witness :
    getFloat (.num 0) = .ok 0 ∧
    linearFunc [.num 0] = .ok (.num 1) ∧
    decibelFunc [.num 0] = .ok (.num (-144)) := by
  have h := c7_db_linear_pair (.num 0) 0 rfl
  refine ⟨rfl, ?_, ?_⟩
  · rw [h.1]
    norm_num [Real.rpow_zero]
  · rw [h.2]
    norm_num

/-- Claim C8, failing part: when the second argument of min, max or pow
fails coercion, the error reports the FIRST argument (the source formats
args[0] in both branches), even though the first argument coerced fine;
the second argument is the one that is not a float. -/
theorem c8_second_arg_misreported :
    getFloat (GoValue.num 0) = .ok 0 ∧
    getFloat (GoValue.str "x") = .error "invalid syntax" ∧
    minFunc [.num 0, .str "x"] = .error (.notFloat (.num 0)) ∧
    maxFunc [.num 0, .str "x"] = .error (.notFloat (.num 0)) ∧
    powFunc [.num 0, .str "x"] = .error (.notFloat (.num 0)) :=
  ⟨rfl, rfl, rfl, rfl, rfl⟩

/-- The raw document used by the C9 witness. -/
def raw0 : Lv2HostRaw :=
  { Reference := 0, Plugins := [{ URI := "u", Data := [("p", "7")] }] }

/-- Claim C9: key-set invariant. After a load every entity has an empty
resolved map (so its key set is a subset of the formatted key set);
after a successful Evaluate the two key sets are equal for every entity;
a failed Evaluate leaves the store unchanged. -/
theorem c9_keyset_invariant (g : GovEngine) (raw : Lv2HostRaw)
    (c c2 : LV2HostConfig) (e : EvalErr) :
    (∀ pc ∈ (LV2HostConfig.ReadFileWith (.ok raw) c).2.Plugins,
        pc.Data = [] ∧ pc.Data.map Prod.fst ⊆ pc.DataFmt.map Prod.fst) ∧
    (c.Evaluate g = (none, c2) →
        ∀ pc ∈ c2.Plugins, pc.Data.map Prod.fst = pc.DataFmt.map Prod.fst) ∧
    (c.Evaluate g = (some e, c2) → c2 = c) := by
  refine ⟨?_, ?_, ?_⟩
  · intro pc hpc
    simp only [LV2HostConfig.ReadFileWith, List.mem_map] at hpc
    obtain ⟨rpd, hr, hpc⟩ := hpc
    subst hpc
    exact ⟨rfl, by simp⟩
  · intro h
    unfold LV2HostConfig.Evaluate at h
    cases he : evaluatePlugins g c.FunctionMap c.ValueMap c.Plugins with
    | error e0 => rw [he] at h; exact absurd h (by simp)
    | ok pcs =>
      rw [he] at h
      cases h
      exact evaluatePlugins_keys g c.FunctionMap c.ValueMap c.Plugins pcs he
  · intro h
    unfold LV2HostConfig.Evaluate at h
    cases he : evaluatePlugins g c.FunctionMap c.ValueMap c.Plugins with
    | error e0 => rw [he] at h; cases h; rfl
    | ok pcs => rw [he] at h; exact absurd h (by simp)

/-- The entity produced by evaluating stOk: the literal 7 resolved. -/
def pc1 : LV2PluginConfig :=
  { PluginURI := "uri", Data := [("p", ((7 : ℚ) : ℝ))], DataFmt := [("p", "7")] }

/-- The entity produced by loading raw0: formatted text only, empty Data. -/
def pcLoaded : LV2PluginConfig :=
  { PluginURI := "u", Data := [], DataFmt := [("p", "7")] }

/-- Witness for C9 at concrete inputs: the loaded entity has empty Data,
the evaluated entity has equal key sets, the failed pass keeps the store. -/
theorem c9_keyset_invariant_witness :
    pcLoaded ∈ (LV2HostConfig.ReadFileWith (.ok raw0) stOk).2.Plugins ∧
    pcLoaded.Data = [] ∧
    LV2HostConfig.Evaluate gNever stOk = (none, { stOk with Plugins := [pc1] }) ∧
    pc1 ∈ ({ stOk with Plugins := [pc1] } : LV2HostConfig).Plugins ∧
    pc1.Data.map Prod.fst = pc1.DataFmt.map Prod.fst ∧
    LV2HostConfig.Evaluate gNever stFail = (some (.parseError "oops" "bad"), stFail) ∧
    (LV2HostConfig.Evaluate gNever stFail).2 = stFail := by
  have hmem : pcLoaded ∈ (LV2HostConfig.ReadFileWith (.ok raw0) stOk).2.Plugins := by
    simp [LV2HostConfig.ReadFileWith, raw0, pcLoaded]
  have hsucc : LV2HostConfig.Evaluate gNever stOk =
      (none, { stOk with Plugins := [pc1] }) := rfl
  have hmem2 : pc1 ∈ ({ stOk with Plugins := [pc1] } : LV2HostConfig).Plugins := by
    simp
  exact ⟨hmem,
    ((c9_keyset_invariant gNever raw0 stOk stOk (.parseError "oops" "bad")).1
      pcLoaded hmem).1,
    hsucc, hmem2,
    (c9_keyset_invariant gNever raw0 stOk { stOk with Plugins := [pc1] }
      (.parseError "oops" "bad")).2.1 hsucc pc1 hmem2,
    rfl,
    (c9_keyset_invariant gNever raw0 stFail stFail (.parseError "oops" "bad")).2.2 rfl⟩
